import Mathlib

/-!
Shallow embedding of the HWID client (src/client.py) and proofs of its
specified properties. The embedding covers the encryption-key setup
(HWIDClient.init_encryption), the encrypted settings store
(HWIDClient.save_settings / load_settings), the remote verification loop
(HWIDClient.verify_hwid), and the interactive settings update
(HWIDClient.update_settings).

Modelling conventions:
- Python JSON values that occur in this program are null, booleans,
  integers and strings; they are embedded as `JPrim`. JSON objects are
  association lists `JObj` (dict insertion order preserved, as in Python).
- The Fernet cipher of the cryptography library is external to the
  repository; it is modelled by its contract: an authenticated token that
  decrypts to the original plaintext exactly under the key that produced
  it, and fails to decrypt otherwise. Undecryptable or unparsable file
  bytes are one constructor, since the source handles every such error in
  a single except branch.
- Randomness (os.urandom fed through PBKDF2) is an input parameter of the
  embedding, not something it computes.
- Filesystem effects are explicit state passing over the two files the
  store owns (settings.dll and its .bak sibling).
-/

/-- Primitive JSON value as produced by response.json() or json.loads. -/
inductive JPrim where
  | null : JPrim
  | jbool : Bool → JPrim
  | num : Int → JPrim
  | str : String → JPrim
deriving DecidableEq, Repr

/-- Python truthiness of a JSON primitive, as used by bare `if v:` tests. -/
def truthy : JPrim → Bool
  | .null => false
  | .jbool b => b
  | .num n => n != 0
  | .str s => !s.isEmpty

/-- Truthiness of dict.get, where a missing key gives falsy None. -/
def truthyOpt : Option JPrim → Bool
  | none => false
  | some v => truthy v

/-- JSON object: keys in insertion order, as a Python dict preserves. -/
abbrev JObj := List (String × JPrim)

/-- dict.get k: first binding of k, None when absent. -/
def jget (d : JObj) (k : String) : Option JPrim :=
  match d with
  | [] => none
  | (k', v) :: rest => if k' == k then some v else jget rest k

/-- dict.get k dflt: lookup with a default value. -/
def jgetD (d : JObj) (k : String) (dflt : JPrim) : JPrim :=
  (jget d k).getD dflt

/-- The Settings dataclass of src/client.py, fields in declaration order
with their source defaults. Fields hold `JPrim` because Python attribute
assignment is untyped: load_settings stores whatever JSON value the file
carried. -/
structure Settings where
  total_day : JPrim := .num 36600
  commit_freq : JPrim := .num 100
  variability : JPrim := .jbool false
  repo_link : JPrim := .str "https://github.com/username/repo.git"
  commit_message_template : JPrim := .str "commit #\x7b\x7d"
  author_name : JPrim := .str "PG Mohd Azhan FIkri"
  author_email : JPrim := .str "harrydotmyx@gmail.com"
deriving DecidableEq, Repr

/-- Settings() with all defaults, as built in HWIDClient.__init__. -/
def defaultSettings : Settings := {}

/-- asdict(settings): the dataclass as a JSON object, keys in field
declaration order (what json.dumps serializes in save_settings). -/
def Settings.asdict (s : Settings) : JObj :=
  [("total_day", s.total_day),
   ("commit_freq", s.commit_freq),
   ("variability", s.variability),
   ("repo_link", s.repo_link),
   ("commit_message_template", s.commit_message_template),
   ("author_name", s.author_name),
   ("author_email", s.author_email)]

/-- Contents of a settings file on disk. `token key plain` is a Fernet
token produced under `key` whose decrypted plaintext parses to the JSON
object `plain`; `corrupt` stands for any byte string whose decryption or
JSON parsing raises (invalid token, wrong padding, non-JSON plaintext,
non-dict JSON) — the source handles all of these in one except branch. -/
inductive Blob where
  | token : Nat → JObj → Blob
  | corrupt : String → Blob
deriving DecidableEq, Repr

/-- cipher_suite.encrypt of the JSON payload under the given key. -/
def fernetEncrypt (key : Nat) (plain : JObj) : Blob :=
  .token key plain

/-- cipher_suite.decrypt followed by json.loads: succeeds exactly on a
token of the same key, giving back its plaintext object. -/
def fernetDecryptParse (key : Nat) : Blob → Option JObj
  | .token k p => if k == key then some p else none
  | .corrupt _ => none

/-- The two files ConfigStore owns: settings.dll and settings.bak. -/
structure FS where
  settingsFile : Option Blob
  backupFile : Option Blob
deriving DecidableEq, Repr

/-- Outcome of the SETTINGS_FILE.write_bytes call inside save_settings:
it either succeeds, raises after creating a (possibly partial) file, or
raises leaving no file behind. -/
inductive WriteOutcome where
  | ok : WriteOutcome
  | failedWithJunk : Blob → WriteOutcome
  | failedClean : WriteOutcome
deriving DecidableEq, Repr

/-- Result of save_settings: the filesystem afterwards and whether the
call re-raised an exception to its caller. -/
structure SaveResult where
  fs : FS
  raised : Bool
deriving DecidableEq, Repr

/-- HWIDClient.save_settings: rename an existing settings file to .bak,
write the encrypted payload, delete the .bak on success; on a write
failure, rename the .bak back over the settings path and re-raise. -/
def save_settings (key : Nat) (s : Settings) (fs : FS) (w : WriteOutcome) : SaveResult :=
  -- if self.SETTINGS_FILE.exists(): rename it to backup_path
  let backupMade := fs.settingsFile.isSome
  let fs1 : FS :=
    if backupMade then { settingsFile := none, backupFile := fs.settingsFile } else fs
  let encrypted := fernetEncrypt key (Settings.asdict s)
  match w with
  | .ok =>
    -- self.SETTINGS_FILE.write_bytes(encrypted_data) succeeded
    let fs2 : FS := { fs1 with settingsFile := some encrypted }
    -- if backup_path and backup_path.exists(): backup_path.unlink()
    let fs3 : FS :=
      if backupMade && fs2.backupFile.isSome then { fs2 with backupFile := none } else fs2
    { fs := fs3, raised := false }
  | .failedWithJunk junk =>
    -- write raised after creating the file; except branch restores .bak
    let fs2 : FS := { fs1 with settingsFile := some junk }
    let fs3 : FS :=
      if backupMade && fs2.backupFile.isSome then
        { settingsFile := fs2.backupFile, backupFile := none }
      else fs2
    { fs := fs3, raised := true }
  | .failedClean =>
    -- write raised leaving no settings file; except branch restores .bak
    let fs3 : FS :=
      if backupMade && fs1.backupFile.isSome then
        { settingsFile := fs1.backupFile, backupFile := none }
      else fs1
    { fs := fs3, raised := true }

/-- Names for which hasattr(self.settings, key) holds. -/
def isSettingsField (k : String) : Bool :=
  k == "total_day" || k == "commit_freq" || k == "variability" ||
  k == "repo_link" || k == "commit_message_template" ||
  k == "author_name" || k == "author_email"

/-- One iteration of the load_settings merge loop: setattr when the key
is a dataclass field, otherwise skip (a warning is logged for it). -/
def applyLoaded (s : Settings) (kv : String × JPrim) : Settings :=
  match kv.1 with
  | "total_day" => { s with total_day := kv.2 }
  | "commit_freq" => { s with commit_freq := kv.2 }
  | "variability" => { s with variability := kv.2 }
  | "repo_link" => { s with repo_link := kv.2 }
  | "commit_message_template" => { s with commit_message_template := kv.2 }
  | "author_name" => { s with author_name := kv.2 }
  | "author_email" => { s with author_email := kv.2 }
  | _ => s

/-- Result of load_settings: the in-memory record afterwards, whether the
could-not-load warning fired, and which unknown keys were warned about. -/
structure LoadResult where
  settings : Settings
  warnedLoadFailure : Bool
  unknownKeyWarnings : List String
deriving DecidableEq, Repr

/-- HWIDClient.load_settings: absent file leaves the record as it is; a
decryption or parse error is caught and logged, leaving the record as it
is; otherwise every recognized field of the parsed object overwrites the
record and unknown fields are warned about and skipped. `current` is the
record held before the call (the dataclass defaults in __init__). -/
def load_settings (key : Nat) (fs : FS) (current : Settings) : LoadResult :=
  match fs.settingsFile with
  | none => { settings := current, warnedLoadFailure := false, unknownKeyWarnings := [] }
  | some blob =>
    match fernetDecryptParse key blob with
    | none => { settings := current, warnedLoadFailure := true, unknownKeyWarnings := [] }
    | some dict =>
      { settings := dict.foldl applyLoaded current
        warnedLoadFailure := false
        unknownKeyWarnings := (dict.filter (fun kv => !(isSettingsField kv.1))).map Prod.fst }

/-- HWIDClient.init_encryption: when no key file exists, derive a fresh
key (16-byte urandom salt and 32-byte urandom input through
PBKDF2-HMAC-SHA256, base64-url-encoded — summarized as the externally
supplied random value `derivedFresh`) and write it to the key file; when
the key file exists, read its raw bytes and use them directly. Returns
the cipher key together with the key-file state afterwards. -/
def init_encryption (derivedFresh : Nat) (keyFile : Option Nat) : Nat × Option Nat :=
  match keyFile with
  | none => (derivedFresh, some derivedFresh)
  | some k => (k, some k)

/-- What the network does on one attempt of verify_hwid: deliver an HTTP
response with a parsed JSON body, raise an aiohttp.ClientError (connection
refused, DNS failure, reset), or raise some other exception (e.g. the
asyncio timeout of the 10-second cap, or an unparsable body). -/
inductive AttemptEvent where
  | response : Nat → JObj → AttemptEvent
  | clientError : String → AttemptEvent
  | otherError : String → AttemptEvent
deriving DecidableEq, Repr

/-- The branch of verify_hwid that produced the returned value, one
constructor per distinct console report in the source. -/
inductive Outcome where
  | verifiedActive : Outcome
  | notVerified : Outcome
  | wrongStatus : Option JPrim → Outcome
  | deniedSilent : Outcome
  | httpError : JPrim → Outcome
  | connectionError : String → Outcome
  | verificationError : String → Outcome
  | fellThrough : Outcome
deriving DecidableEq, Repr

/-- Observable result of a verify_hwid run: how many attempts were made,
the asyncio.sleep durations in order, the reporting branch taken, and the
boolean the coroutine returned. -/
structure VerifyResult where
  attemptsMade : Nat
  sleeps : List Nat
  outcome : Outcome
  retval : Bool
deriving DecidableEq, Repr

/-- The status == 200 branch of verify_hwid: truthiness of
data.get of exists and of verified, and equality of data.get of status
with the string active, decide the report and the return value. -/
def classify200 (data : JObj) : Outcome × Bool :=
  if truthyOpt (jget data "exists") && truthyOpt (jget data "verified")
      && (jget data "status" == some (.str "active")) then
    (.verifiedActive, true)
  else if !truthyOpt (jget data "verified") then
    (.notVerified, false)
  else if jget data "status" != some (.str "active") then
    (.wrongStatus (jget data "status"), false)
  else
    (.deniedSilent, false)

/-- The retry loop of verify_hwid. `env` gives each attempt index its
network event; `attempt` is the loop variable and `fuel` the iterations
range(MAX_RETRIES) still has (the fuel-exhausted case is the trailing
return False after the loop, unreachable from the initial call). An
exception retries, after a RETRY_DELAY sleep, only while
attempt < MAX_RETRIES - 1; a delivered response always returns. -/
def verifyLoop (maxRetries retryDelay : Nat) (env : Nat → AttemptEvent) :
    Nat → Nat → VerifyResult
  | _, 0 => { attemptsMade := 0, sleeps := [], outcome := .fellThrough, retval := false }
  | attempt, fuel + 1 =>
    match env attempt with
    | .response status data =>
      if status == 200 then
        let ob := classify200 data
        { attemptsMade := 1, sleeps := [], outcome := ob.1, retval := ob.2 }
      else
        { attemptsMade := 1, sleeps := []
          outcome := .httpError (jgetD data "error" (.str "Unknown error")), retval := false }
    | .clientError m =>
      if attempt < maxRetries - 1 then
        let rest := verifyLoop maxRetries retryDelay env (attempt + 1) fuel
        { attemptsMade := rest.attemptsMade + 1, sleeps := retryDelay :: rest.sleeps
          outcome := rest.outcome, retval := rest.retval }
      else
        { attemptsMade := 1, sleeps := [], outcome := .connectionError m, retval := false }
    | .otherError m =>
      if attempt < maxRetries - 1 then
        let rest := verifyLoop maxRetries retryDelay env (attempt + 1) fuel
        { attemptsMade := rest.attemptsMade + 1, sleeps := retryDelay :: rest.sleeps
          outcome := rest.outcome, retval := rest.retval }
      else
        { attemptsMade := 1, sleeps := [], outcome := .verificationError m, retval := false }

/-- HWIDClient.verify_hwid with MAX_RETRIES = 3 and RETRY_DELAY = 2. -/
def verify_hwid (env : Nat → AttemptEvent) : VerifyResult :=
  verifyLoop 3 2 env 0 3

/-- Attempt events that are network-level failures (either except branch
of the loop body). -/
def isNetworkError : AttemptEvent → Bool
  | .clientError _ => true
  | .otherError _ => true
  | .response _ _ => false

/-- Outcomes reporting a transient error: the final attempt failed with a
connection or other exception and the failure was surfaced instead of
retried. -/
def isTransientOutcome : Outcome → Bool
  | .connectionError _ => true
  | .verificationError _ => true
  | _ => false

/-- Outcomes reporting the not-verified-or-inactive verdict: a delivered
response denied verification. -/
def isDeniedOutcome : Outcome → Bool
  | .notVerified => true
  | .wrongStatus _ => true
  | .deniedSilent => true
  | .httpError _ => true
  | _ => false

/-- str.isdigit of the user input: nonempty and every character a digit
(computed over the character list of the string). -/
def pyIsDigit (s : String) : Bool :=
  !s.data.isEmpty && s.data.all Char.isDigit

/-- int(s) for a digit string: its nonnegative decimal value. -/
def parseNat (s : String) : Nat :=
  s.data.foldl (fun acc c => acc * 10 + (c.toNat - 48)) 0

/-- str.strip(): drop leading and trailing whitespace characters. -/
def pyStrip (s : String) : String :=
  ⟨((s.data.dropWhile Char.isWhitespace).reverse.dropWhile Char.isWhitespace).reverse⟩

/-- str.lower(): lowercase every character. -/
def pyLower (s : String) : String :=
  ⟨s.data.map Char.toLower⟩

/-- str.endswith(suffix): the character list of suffix is a suffix of the
character list of s. -/
def pyEndsWith (s suffix : String) : Bool :=
  suffix.data.isSuffixOf s.data

/-- Result of update_settings: the in-memory record afterwards, whether
save_settings was invoked (hence whether the disk was touched at all),
and the invalid-input message when a validation step raised ValueError. -/
structure UpdateResult where
  settings : Settings
  saveCalled : Bool
  errorMsg : Option String
deriving DecidableEq, Repr

/-- HWIDClient.update_settings on the four prompt answers. Each accepted
answer is assigned to self.settings immediately; a validation failure
raises ValueError, which the surrounding except catches after the earlier
assignments already happened, and save_settings is only reached when all
validations pass. int of a digit string is nonnegative, so the source
test int(x) <= 0 is the test parseNat x = 0 here. -/
def update_settings (s : Settings) (inTotal inFreq inVar inRepo : String) : UpdateResult :=
  if !(pyIsDigit inTotal) || parseNat inTotal == 0 then
    { settings := s, saveCalled := false
      errorMsg := some "Total days must be a positive number" }
  else
    let s1 : Settings := { s with total_day := .num (Int.ofNat (parseNat inTotal)) }
    if !(pyIsDigit inFreq) || parseNat inFreq == 0 then
      { settings := s1, saveCalled := false
        errorMsg := some "Commits per day must be a positive number" }
    else
      let s2 : Settings := { s1 with commit_freq := .num (Int.ofNat (parseNat inFreq)) }
      let s3 : Settings := { s2 with variability := .jbool (pyLower (pyStrip inVar) == "yes") }
      let repo := pyStrip inRepo
      if !(pyEndsWith repo ".git") then
        { settings := s3, saveCalled := false
          errorMsg := some "Repository URL must end with .git" }
      else
        { settings := { s3 with repo_link := .str repo }, saveCalled := true, errorMsg := none }

/-- Environment: every attempt delivers HTTP 200 with exists true,
verified true, status active. -/
def envActive : Nat → AttemptEvent := fun _ =>
  .response 200 [("exists", .jbool true), ("verified", .jbool true), ("status", .str "active")]

/-- Environment: every attempt delivers HTTP 200 with exists true,
verified false, status pending. -/
def envPending : Nat → AttemptEvent := fun _ =>
  .response 200 [("exists", .jbool true), ("verified", .jbool false), ("status", .str "pending")]

/-- Environment: every attempt delivers HTTP 429 with a rate-limited
error body. -/
def envRateLimited : Nat → AttemptEvent := fun _ =>
  .response 429 [("error", .str "rate limited")]

/-- C4: verify_hwid maps responses as specified: the active body at 200
yields the verified report with return value true; the pending unverified
body at 200 yields the not-verified report with false; and for every run
whose first attempt delivers any non-200 status with any JSON body, the
call ends after that single attempt with no sleeps — so no retries — in
the server-error report (a denied, not-verified-or-inactive outcome)
carrying the error field of the body or the unknown-error default, with
return value false; in particular HTTP 429 with a rate-limited error body
yields exactly the rate-limited denial. -/
theorem verify_verdict_mapping :
    verify_hwid envActive =
      { attemptsMade := 1, sleeps := [], outcome := .verifiedActive, retval := true } ∧
    verify_hwid envPending =
      { attemptsMade := 1, sleeps := [], outcome := .notVerified, retval := false } ∧
    (∀ (env : Nat → AttemptEvent) (status : Nat) (data : JObj),
      env 0 = .response status data → status ≠ 200 →
      verify_hwid env =
        { attemptsMade := 1, sleeps := []
          outcome := .httpError (jgetD data "error" (.str "Unknown error")), retval := false } ∧
      isDeniedOutcome (verify_hwid env).outcome = true) ∧
    verify_hwid envRateLimited =
      { attemptsMade := 1, sleeps := []
        outcome := .httpError (.str "rate limited"), retval := false } := by
  refine ⟨rfl, rfl, ?_, rfl⟩
  intro env status data h0 hne
  have hres : verify_hwid env =
      { attemptsMade := 1, sleeps := []
        outcome := .httpError (jgetD data "error" (.str "Unknown error")), retval := false } := by
    simp [verify_hwid, verifyLoop, h0, hne]
  refine ⟨hres, ?_⟩
  rw [hres]
  rfl

/-- Witness for C4: the universal non-200 leg applied to the concrete
rate-limited response at HTTP 429. -/
theorem verify_verdict_mapping_witness :
    verify_hwid envRateLimited =
      { attemptsMade := 1, sleeps := []
        outcome := .httpError (jgetD [("error", JPrim.str "rate limited")] "error"
          (.str "Unknown error"))
        retval := false } ∧
    isDeniedOutcome (verify_hwid envRateLimited).outcome = true :=
  verify_verdict_mapping.2.2.1 envRateLimited 429 [("error", .str "rate limited")]
    rfl (by decide)

/-- C7: init_encryption is idempotent on the key file: a second call on
the key-file state left by a first call returns the same cipher key, and
when a key file already exists the call returns exactly its raw bytes,
leaving the file unchanged. -/
theorem init_encryption_idempotent (f1 f2 : Nat) (keyFile : Option Nat) :
    (init_encryption f2 (init_encryption f1 keyFile).2).1 = (init_encryption f1 keyFile).1 ∧
    (∀ k, keyFile = some k → init_encryption f1 keyFile = (k, some k)) := by
  cases keyFile <;> simp [init_encryption]

/-- Witness for C7 at a concrete existing key file. -/
theorem init_encryption_idempotent_witness :
    (init_encryption 5 (init_encryption 7 (some 42)).2).1 = (init_encryption 7 (some 42)).1 ∧
    init_encryption 7 (some 42) = (42, some 42) :=
  ⟨(init_encryption_idempotent 7 5 (some 42)).1,
   (init_encryption_idempotent 7 5 (some 42)).2 42 rfl⟩

/-- C3: round-trip — for a valid settings record (positive integer total
days and commits per day), save_settings with a successful write followed
by load_settings under the same key into a fresh default record yields
the record that was saved, field for field. -/
theorem settings_roundtrip (key : Nat) (fs : FS) (s : Settings) (t f : Int)
    (ht : s.total_day = .num t) (htpos : 0 < t)
    (hf : s.commit_freq = .num f) (hfpos : 0 < f) :
    (load_settings key (save_settings key s fs .ok).fs defaultSettings).settings = s := by
  obtain ⟨sf, bf⟩ := fs
  cases sf <;>
    simp [save_settings, load_settings, fernetEncrypt, fernetDecryptParse,
      Settings.asdict, applyLoaded]

/-- Witness for C3 at the default record under key 0. -/
theorem settings_roundtrip_witness :
    (load_settings 0 (save_settings 0 defaultSettings ⟨none, none⟩ .ok).fs
        defaultSettings).settings = defaultSettings :=
  settings_roundtrip 0 ⟨none, none⟩ defaultSettings 36600 100 rfl (by decide) rfl (by decide)

/-- C2: when a settings file existed before save_settings and the write
step fails (in either failure shape), the call re-raises and the backup
is restored to the settings path, so the prior file contents are on disk
again. -/
theorem save_settings_restores_backup (key : Nat) (s : Settings) (fs : FS)
    (w : WriteOutcome) (b : Blob) (hprev : fs.settingsFile = some b) (hfail : w ≠ .ok) :
    (save_settings key s fs w).raised = true ∧
    (save_settings key s fs w).fs.settingsFile = some b := by
  cases w with
  | ok => exact absurd rfl hfail
  | failedWithJunk junk => simp [save_settings, hprev]
  | failedClean => simp [save_settings, hprev]

/-- Witness for C2: a concrete valid settings file survives a failed
rewrite. -/
theorem save_settings_restores_backup_witness :
    (save_settings 1 defaultSettings
        ⟨some (.token 1 (Settings.asdict defaultSettings)), none⟩ .failedClean).raised = true ∧
    (save_settings 1 defaultSettings
        ⟨some (.token 1 (Settings.asdict defaultSettings)), none⟩ .failedClean).fs.settingsFile
      = some (.token 1 (Settings.asdict defaultSettings)) :=
  save_settings_restores_backup 1 defaultSettings
    ⟨some (.token 1 (Settings.asdict defaultSettings)), none⟩ .failedClean
    (.token 1 (Settings.asdict defaultSettings)) rfl (by decide)

/-- C5: load_settings is a total function of the file state (it never
raises); with no settings file it leaves the defaults untouched and warns
nothing, and on any decryption or parse error of an existing file it
warns and leaves the defaults untouched. -/
theorem load_settings_defaults_on_missing_or_error (key : Nat) (fs : FS) :
    (fs.settingsFile = none →
      load_settings key fs defaultSettings =
        { settings := defaultSettings, warnedLoadFailure := false, unknownKeyWarnings := [] }) ∧
    (∀ blob, fs.settingsFile = some blob → fernetDecryptParse key blob = none →
      load_settings key fs defaultSettings =
        { settings := defaultSettings, warnedLoadFailure := true, unknownKeyWarnings := [] }) := by
  constructor
  · intro h
    simp [load_settings, h]
  · intro blob hb hd
    simp [load_settings, hb, hd]

/-- Witness for C5: a missing file and an undecryptable file both leave
the defaults. -/
theorem load_settings_defaults_witness :
    load_settings 0 ⟨none, none⟩ defaultSettings =
      { settings := defaultSettings, warnedLoadFailure := false, unknownKeyWarnings := [] } ∧
    load_settings 0 ⟨some (.corrupt "junk"), none⟩ defaultSettings =
      { settings := defaultSettings, warnedLoadFailure := true, unknownKeyWarnings := [] } :=
  ⟨(load_settings_defaults_on_missing_or_error 0 ⟨none, none⟩).1 rfl,
   (load_settings_defaults_on_missing_or_error 0 ⟨some (.corrupt "junk"), none⟩).2
     (.corrupt "junk") rfl rfl⟩

/-- C1: when every attempt fails with a network-level error, verify_hwid
performs exactly 3 attempts with a 2-second sleep between consecutive
attempts, and the final report is the surfaced transient failure of the
last attempt — a report distinct from every denied
(not-verified-or-inactive) report — with return value false. -/
theorem verify_retry_bound (env : Nat → AttemptEvent)
    (h : ∀ i, i < 3 → isNetworkError (env i) = true) :
    (verify_hwid env).attemptsMade = 3 ∧
    (verify_hwid env).sleeps = [2, 2] ∧
    isTransientOutcome (verify_hwid env).outcome = true ∧
    isDeniedOutcome (verify_hwid env).outcome = false ∧
    (verify_hwid env).retval = false := by
  have h0 := h 0 (by decide)
  have h1 := h 1 (by decide)
  have h2 := h 2 (by decide)
  cases e0 : env 0 with
  | response st d =>
    rw [e0] at h0
    exact absurd h0 (by simp [isNetworkError])
  | clientError m0 =>
    cases e1 : env 1 with
    | response st d =>
      rw [e1] at h1
      exact absurd h1 (by simp [isNetworkError])
    | clientError m1 =>
      cases e2 : env 2 with
      | response st d =>
        rw [e2] at h2
        exact absurd h2 (by simp [isNetworkError])
      | clientError m2 =>
        simp [verify_hwid, verifyLoop, e0, e1, e2, isTransientOutcome, isDeniedOutcome]
      | otherError m2 =>
        simp [verify_hwid, verifyLoop, e0, e1, e2, isTransientOutcome, isDeniedOutcome]
    | otherError m1 =>
      cases e2 : env 2 with
      | response st d =>
        rw [e2] at h2
        exact absurd h2 (by simp [isNetworkError])
      | clientError m2 =>
        simp [verify_hwid, verifyLoop, e0, e1, e2, isTransientOutcome, isDeniedOutcome]
      | otherError m2 =>
        simp [verify_hwid, verifyLoop, e0, e1, e2, isTransientOutcome, isDeniedOutcome]
  | otherError m0 =>
    cases e1 : env 1 with
    | response st d =>
      rw [e1] at h1
      exact absurd h1 (by simp [isNetworkError])
    | clientError m1 =>
      cases e2 : env 2 with
      | response st d =>
        rw [e2] at h2
        exact absurd h2 (by simp [isNetworkError])
      | clientError m2 =>
        simp [verify_hwid, verifyLoop, e0, e1, e2, isTransientOutcome, isDeniedOutcome]
      | otherError m2 =>
        simp [verify_hwid, verifyLoop, e0, e1, e2, isTransientOutcome, isDeniedOutcome]
    | otherError m1 =>
      cases e2 : env 2 with
      | response st d =>
        rw [e2] at h2
        exact absurd h2 (by simp [isNetworkError])
      | clientError m2 =>
        simp [verify_hwid, verifyLoop, e0, e1, e2, isTransientOutcome, isDeniedOutcome]
      | otherError m2 =>
        simp [verify_hwid, verifyLoop, e0, e1, e2, isTransientOutcome, isDeniedOutcome]

/-- Witness for C1: every attempt times out. -/
theorem verify_retry_bound_witness :
    (verify_hwid (fun _ => .otherError "timeout")).attemptsMade = 3 ∧
    (verify_hwid (fun _ => .otherError "timeout")).sleeps = [2, 2] ∧
    isTransientOutcome (verify_hwid (fun _ => .otherError "timeout")).outcome = true ∧
    isDeniedOutcome (verify_hwid (fun _ => .otherError "timeout")).outcome = false ∧
    (verify_hwid (fun _ => .otherError "timeout")).retval = false :=
  verify_retry_bound (fun _ => .otherError "timeout") (fun _ _ => rfl)

/-- C9: on an HTTP 200 response whose exists and verified fields are any
Python-truthy JSON values (not necessarily booleans) and whose status is
the string active, verify_hwid reports success and returns true. -/
theorem verify_truthy_success (v1 v2 : JPrim)
    (h1 : truthy v1 = true) (h2 : truthy v2 = true) :
    verify_hwid (fun _ =>
        .response 200 [("exists", v1), ("verified", v2), ("status", .str "active")]) =
      { attemptsMade := 1, sleeps := [], outcome := .verifiedActive, retval := true } := by
  simp [verify_hwid, verifyLoop, classify200, jget, truthyOpt, h1, h2]

/-- Witness for C9: a nonzero number and a nonempty string are truthy and
verify successfully. -/
theorem verify_truthy_success_witness :
    truthy (.num 7) = true ∧ truthy (.str "yes") = true ∧
    verify_hwid (fun _ =>
        .response 200 [("exists", .num 7), ("verified", .str "yes"), ("status", .str "active")]) =
      { attemptsMade := 1, sleeps := [], outcome := .verifiedActive, retval := true } :=
  ⟨by decide, by decide, verify_truthy_success (.num 7) (.str "yes") (by decide) (by decide)⟩

/-- C8: update_settings rejects any run in which the total days or the
commits per day answer is not a positive digit string, or the repository
URL answer does not end in .git after stripping; in every such run
save_settings is never invoked. -/
theorem update_settings_rejects_invalid (s : Settings) (inTotal inFreq inVar inRepo : String)
    (h : pyIsDigit inTotal = false ∨ parseNat inTotal = 0 ∨
         pyIsDigit inFreq = false ∨ parseNat inFreq = 0 ∨
         pyEndsWith (pyStrip inRepo) ".git" = false) :
    (update_settings s inTotal inFreq inVar inRepo).saveCalled = false := by
  rcases h with h | h | h | h | h
  · simp [update_settings, h]
  · simp [update_settings, h]
  · simp only [update_settings]
    split
    · rfl
    · simp [h]
  · simp only [update_settings]
    split
    · rfl
    · simp [h]
  · simp only [update_settings]
    split
    · rfl
    · split
      · rfl
      · simp [h]

/-- Witness for C8: zero total days is rejected and nothing is saved. -/
theorem update_settings_rejects_invalid_witness :
    (update_settings defaultSettings "0" "100" "yes"
        "https://github.com/username/repo.git").saveCalled = false :=
  update_settings_rejects_invalid defaultSettings "0" "100" "yes"
    "https://github.com/username/repo.git" (Or.inr (Or.inl (by decide)))

/-- C10: when the total days and commits per day answers are accepted but
the repository URL answer fails validation, update_settings ends with
save_settings never invoked (so the on-disk file is untouched), while the
in-memory record already carries the accepted total days, commits per day
and variability values and keeps its previous repository URL. -/
theorem update_settings_partial_state (s : Settings) (inTotal inFreq inVar inRepo : String)
    (h1 : pyIsDigit inTotal = true) (h1p : parseNat inTotal ≠ 0)
    (h2 : pyIsDigit inFreq = true) (h2p : parseNat inFreq ≠ 0)
    (h3 : pyEndsWith (pyStrip inRepo) ".git" = false) :
    update_settings s inTotal inFreq inVar inRepo =
      { settings :=
          { s with total_day := .num (Int.ofNat (parseNat inTotal))
                   commit_freq := .num (Int.ofNat (parseNat inFreq))
                   variability := .jbool (pyLower (pyStrip inVar) == "yes") }
        saveCalled := false
        errorMsg := some "Repository URL must end with .git" } := by
  simp [update_settings, h1, h1p, h2, h2p, h3]

/-- Witness for C10 on concrete prompt answers with a URL lacking the
.git suffix. -/
theorem update_settings_partial_state_witness :
    update_settings defaultSettings "5" "7" "no" "https://example.com/repo" =
      { settings :=
          { defaultSettings with total_day := .num 5
                                 commit_freq := .num 7
                                 variability := .jbool false }
        saveCalled := false
        errorMsg := some "Repository URL must end with .git" } := by
  simpa using update_settings_partial_state defaultSettings "5" "7" "no"
    "https://example.com/repo" (by decide) (by decide) (by decide) (by decide) (by decide)

/-- Field names of the settings payload as the specification text lists
them for SettingsRecord (a spec-side definition, kept for comparison with
the names the source actually writes). -/
def specFieldNames : List String :=
  ["total_days", "commits_per_day", "variability_enabled", "repository_url",
   "commit_message_template", "author_name", "author_email"]

/-- C6 counterexample: the plaintext payload save_settings writes for the
default record does not carry the spec name total_days at all, and its
key list differs from the list of spec names, so the payload does not
consist of the fields as named in the spec. -/
theorem save_payload_spec_names_false :
    (save_settings 0 defaultSettings { settingsFile := none, backupFile := none } .ok).fs.settingsFile
      = some (.token 0 (Settings.asdict defaultSettings)) ∧
    ((Settings.asdict defaultSettings).map Prod.fst).contains "total_days" = false ∧
    (Settings.asdict defaultSettings).map Prod.fst ≠ specFieldNames := by
  refine ⟨rfl, by decide, by decide⟩

/-- C6 as amended: for every record, the plaintext JSON payload written
by a successful save_settings has exactly the dataclass field keys
total_day, commit_freq, variability, repo_link, commit_message_template,
author_name, author_email, in this order — no more and no fewer. -/
theorem save_payload_field_names (key : Nat) (s : Settings) (fs : FS) :
    ∃ plain,
      (save_settings key s fs .ok).fs.settingsFile = some (.token key plain) ∧
      plain.map Prod.fst =
        ["total_day", "commit_freq", "variability", "repo_link",
         "commit_message_template", "author_name", "author_email"] := by
  refine ⟨Settings.asdict s, ?_, rfl⟩
  obtain ⟨sf, bf⟩ := fs
  cases sf <;> rfl
